import Mathlib

/-!
Shallow embedding of the Discord media-server dashboard cog
(`src/cogs/plex_core.py`) and proofs about its formatting, caching and
update logic.

Conventions used throughout:
* Python `datetime` / `time.time()` values are modelled as natural numbers of
  seconds; millisecond quantities are naturals of milliseconds.
* Python floats are modelled as rationals; `f"{x:.1f}"` / `f"{x:.2f}"`
  formatting is modelled with round-half-up on the rational value (the binary
  float rounding differs only on ties that do not occur for the inputs used
  here).
* An attribute that may be absent on a loosely-typed session record is an
  `Option`; reading it without a `hasattr` guard is a fallible operation in
  `Except Unit` (an `AttributeError` caught by the enclosing handler).
* The source file stores its emoji literals in a mojibake (UTF-8 read as
  CP1252) form; the string literals below reproduce those exact characters
  via `\u` escapes so that every literal matches the source byte for byte.
-/

namespace PlexWatch

/-- Models Python `f"{n:02d}"` for a nonnegative integer: pad to width 2. -/
def pad2 (n : Nat) : String :=
  if n < 10 then "0" ++ toString n else toString n

/-- Models Python string repetition `s * k` (nonpositive counts give `""`). -/
def strRepeat (s : String) (k : Nat) : String :=
  String.join (List.replicate k s)

/-- Models Python `f"{q:.1f}"` for a nonnegative rational (round half up). -/
def formatQ1 (q : ℚ) : String :=
  let n : Nat := (q * 10 + 1/2).floor.toNat
  toString (n / 10) ++ "." ++ toString (n % 10)

/-- Models Python `f"{q:.2f}"` for a nonnegative rational (round half up). -/
def formatQ2 (q : ℚ) : String :=
  let n : Nat := (q * 100 + 1/2).floor.toNat
  toString (n / 100) ++ "." ++ pad2 (n % 100)

/-- Accumulates a digit list into the natural number it denotes. -/
def digitsToNat (l : List Char) : Nat :=
  l.foldl (fun a c => 10 * a + (c.toNat - 48)) 0

/-- Models Python `int(s)` on the strings that reach it here: a non-empty
all-digit string parses to its value, anything else (such as a timedelta
day prefix) raises a `ValueError`, modelled by `none`. -/
def pyIntNat (s : String) : Option Nat :=
  if s.data ≠ [] ∧ s.data.all (fun c => c.isDigit) then some (digitsToNat s.data)
  else none

/-- Splits a character list on a separator character, keeping empty pieces
(the Python `str.split(sep)` semantics for one-character separators). -/
def splitChars (sep : Char) : List Char → List (List Char)
  | [] => [[]]
  | c :: rest =>
    let r := splitChars sep rest
    if c = sep then [] :: r
    else
      match r with
      | g :: gs => (c :: g) :: gs
      | [] => [[c]]

/-- Models Python `s.split(sep)` for a one-character separator. -/
def pySplitOn (s : String) (sep : Char) : List String :=
  (splitChars sep s.data).map String.mk

/-- Splits a reversed digit list into groups of three (helper for the
thousands separator of `'{:,.0f}'.format`). -/
def chunk3 : List Char → List (List Char)
  | [] => []
  | a :: b :: c :: rest => [a, b, c] :: chunk3 rest
  | l => [l]

/-- Models Python `'{:,.0f}'.format(n).replace(',', '.')` on a natural
number: decimal digits with a dot every three digits from the right. -/
def thousandsDot (n : Nat) : String :=
  let groups := (chunk3 (toString n).data.reverse).map List.reverse
  String.mk (List.flatten (groups.reverse.intersperse ['.']))

/-- Models Python `str.split()` for the space-separated strings used here:
split on spaces and drop empty pieces. -/
def pySplitWS (s : String) : List String :=
  (pySplitOn s ' ').filter (fun t => t ≠ "")

/-- Python list indexing `l[i]` with negative indices; `none` models an
`IndexError`. -/
def pyIdx (l : List String) (i : Int) : Option String :=
  if 0 ≤ i then l.get? i.toNat
  else if i.natAbs ≤ l.length then l.get? (l.length - i.natAbs) else none

/-- Reading a possibly-missing attribute without a `hasattr` guard:
`none` raises an `AttributeError`. -/
def attr {α : Type} : Option α → Except Unit α
  | some a => Except.ok a
  | none => Except.error ()

/-- A JSON numeric value that may be `null` (`none`); using a `null` in
arithmetic or comparison raises a `TypeError`. -/
def jnum : Option Nat → Except Unit Nat
  | some n => Except.ok n
  | none => Except.error ()

/-- The literal `"🟢 Online"` status string as it appears (mojibake) in the
source. -/
def onlineStatus : String := "ðŸŸ¢ Online"

/-- The literal `"🔴 Offline"` status string from `get_offline_info`. -/
def offlineStatus : String := "ðŸ”´ Offline"

/-- Embedding of `calculate_uptime` (src/cogs/plex_core.py:151-158).
`plex_start_time` is the stored connection start (seconds), `now` the value
of `time.time()`.  A stored value of `0` is falsy in Python, hence the
extra zero test mirroring `if not self.plex_start_time`. -/
def calculate_uptime (plex_start_time : Option Nat) (now : Nat) : String :=
  match plex_start_time with
  | none => "Offline"
  | some s =>
    if s = 0 then "Offline"
    else
      let total_minutes := (now - s) / 60
      let hours := total_minutes / 60
      let minutes := total_minutes % 60
      if hours > 99 then "99+ Hours" else pad2 hours ++ ":" ++ pad2 minutes

/-- One download record as consumed by `_calculate_total_size`; only the
`size` string is relevant here. -/
structure Download where
  size : String
deriving DecidableEq, Repr

/-- Models Python `float(s)` on the plain decimal strings used for download
sizes (`"512"`, `"2.5"`, ...); `none` models a `ValueError`. -/
def parseDecimal (s : String) : Option ℚ :=
  match pySplitOn s '.' with
  | [w] => (pyIntNat w).map (fun n => (n : ℚ))
  | [w, f] =>
    match pyIntNat w, pyIntNat f with
    | some wn, some fn => some ((wn : ℚ) + (fn : ℚ) / ((10 : ℚ) ^ f.length))
    | _, _ => none
  | _ => none

/-- One iteration of the `_calculate_total_size` loop: the contribution of a
single size string in megabytes.  `"Unknown"` is skipped (`continue`, i.e.
contributes `0`); otherwise `value, unit = size.split()` (a `ValueError`,
modelled by `none`, if the split does not give exactly two pieces or the
value does not parse); KB is divided by 1024, GB multiplied by 1024, and any
other unit contributes `0`. -/
def sizeContribMB (size : String) : Option ℚ :=
  if size = "Unknown" then some 0
  else
    match pySplitWS size with
    | [v, unit] =>
      match parseDecimal v with
      | some value =>
        some (if unit = "KB" then value / 1024
              else if unit = "MB" then value
              else if unit = "GB" then value * 1024
              else 0)
      | none => none
    | _ => none

/-- Embedding of `_calculate_total_size` (src/cogs/plex_core.py:704-713):
sum the per-download megabyte contributions, then render as GB (two
decimals) if the total is at least 1024 MB, else as MB.  `none` models an
uncaught exception from a malformed size string. -/
def _calculate_total_size (downloads : List Download) : Option String := do
  let total ← downloads.foldlM (fun acc d => do
    let c ← sizeContribMB d.size
    pure (acc + c)) (0 : ℚ)
  pure (if total ≥ 1024 then formatQ2 (total / 1024) ++ " GB"
        else formatQ2 total ++ " MB")

/-- Models `str(timedelta(milliseconds=ms)).split(".")[0].split(":")` for a
nonnegative millisecond count: Python renders a timedelta as
`"[D day(s), ]H:MM:SS[.ffffff]"` with an unpadded hour; after dropping the
fractional part, splitting on `":"` yields three pieces, the first carrying
any day prefix. -/
def tdParts (ms : Nat) : List String :=
  let totalSeconds := ms / 1000
  let days := totalSeconds / 86400
  let rem := totalSeconds % 86400
  let first :=
    if days = 0 then toString (rem / 3600)
    else toString days ++ (if days = 1 then " day, " else " days, ")
         ++ toString (rem / 3600)
  [first, pad2 (rem % 3600 / 60), pad2 (rem % 60)]

/-- Embedding of `_format_time` (src/cogs/plex_core.py:333-337), taking the
already-split `time_str.split(":")` pieces.  `duration` is in milliseconds.
`none` models an uncaught `ValueError`/`IndexError` from `int(...)` or the
indexing (Python `int` accepts only an optionally signed digit string; the
pieces produced by `tdParts` are digit strings except for a day prefix,
which makes `int` raise). -/
def _format_time (parts : List String) (duration : Nat) : Option String :=
  let less_than_hour := duration / 1000 < 3600
  if less_than_hour then do
    let a ← pyIdx parts (-2)
    let b ← pyIdx parts (-1)
    let m ← pyIntNat a
    let s ← pyIntNat b
    pure (pad2 m ++ ":" ++ pad2 s)
  else do
    let a ← pyIdx parts 0
    let b ← pyIdx parts 1
    let c ← pyIdx parts 2
    let h ← pyIntNat a
    let m ← pyIntNat b
    let s ← pyIntNat c
    pure (toString h ++ ":" ++ pad2 m ++ ":" ++ pad2 s)

/-- The Plex time rendering exactly as called at src/cogs/plex_core.py:292-293:
`_format_time(str(timedelta(milliseconds=pos)).split(".")[0], durationMs)`. -/
def plexRenderTime (posMs : Nat) (durationMs : Nat) : Option String :=
  _format_time (tdParts posMs) durationMs

/-- Embedding of `_format_jellyfin_time` (src/cogs/plex_core.py:480-489);
both arguments are in seconds. -/
def _format_jellyfin_time (seconds : Nat) (total_seconds : Nat) : String :=
  let hours := seconds / 3600
  let minutes := seconds % 3600 / 60
  let secs := seconds % 60
  if total_seconds < 3600 then pad2 minutes ++ ":" ++ pad2 secs
  else toString hours ++ ":" ++ pad2 minutes ++ ":" ++ pad2 secs

/-- Per-library display statistics, the values of the library-stats
dictionaries built by `get_library_stats` / `get_offline_info`. -/
structure SectionStats where
  count : Nat
  episodes : Nat
  display_name : String
  emoji : String
  show_episodes : Bool
deriving DecidableEq, Repr

/-- Per-library configuration from `config["plex_sections"]["sections"]`. -/
structure SectionConfig where
  display_name : String
  emoji : String
  show_episodes : Bool
deriving DecidableEq, Repr

/-- Embeds `config["plex_sections"]`: the `show_all` flag and the ordered
configured-sections dictionary (modelled as an association list in
insertion order, titles unique). -/
structure PlexSectionsConfig where
  show_all : Bool
  sections : List (String × SectionConfig)
deriving DecidableEq, Repr

/-- One Plex library section as seen by the server query: its title,
`len(section.all())`, and `sum(show.leafCount for show in section.all())`. -/
structure PlexSection where
  title : String
  items : Nat
  leafTotal : Nat
deriving DecidableEq, Repr

/-- The default emoji `"🎬"` (mojibake) used for unconfigured sections. -/
def clapEmoji : String := "ðŸŽ¬"

/-- Embedding of `_build_section_stats` (src/cogs/plex_core.py:211-219).
(The `hasattr(section, "all")` conjunct is always true for a section.) -/
def _build_section_stats (sec : PlexSection) (config : SectionConfig) :
    SectionStats :=
  { count := sec.items
    episodes := if config.show_episodes then sec.leafTotal else 0
    display_name := config.display_name
    emoji := config.emoji
    show_episodes := config.show_episodes }

/-- The stats dictionary built inside `get_library_stats` from the live
section list (src/cogs/plex_core.py:176-201): configured sections first in
configured order (skipping ones the server does not have), then, when
`show_all` is set, every unconfigured server section in server order with
its raw title, the default emoji and no episode counts. -/
def buildStats (cfg : PlexSectionsConfig) (sections : List PlexSection) :
    List (String × SectionStats) :=
  let configuredTitles := cfg.sections.map (fun p => p.1)
  let configuredPart := cfg.sections.filterMap (fun p =>
    match sections.find? (fun s => s.title = p.1) with
    | some sec => some (p.1, _build_section_stats sec p.2)
    | none => none)
  if !cfg.show_all then configuredPart
  else
    configuredPart ++
      (sections.filter (fun s => !(configuredTitles.contains s.title))).map
        (fun s => (s.title,
          { count := s.items
            episodes := 0
            display_name := s.title
            emoji := clapEmoji
            show_episodes := false }))

/-- The mutable cache state touched by `get_library_stats`:
`self.library_cache` and `self.last_library_update` (seconds). -/
structure LibraryCacheState where
  library_cache : List (String × SectionStats)
  last_library_update : Option Nat
deriving DecidableEq, Repr

/-- Outcome of the connection + query attempt made on the refresh path of
`get_library_stats`: no connection could be established, the query raised,
or the query returned the section list. -/
inductive FetchOutcome where
  | noConn
  | queryError
  | ok (sections : List PlexSection)
deriving DecidableEq, Repr

/-- Embedding of `get_library_stats` (src/cogs/plex_core.py:160-209) as a
state transformer: returns the stats dictionary and the new cache state.
The cache is fresh when a previous refresh time exists and
`now - last ≤ interval` (a `datetime` is always truthy); on a fresh cache or
on any refresh failure the cached value is returned and the state is left
unchanged; on a successful refresh the cache is replaced wholesale and the
refresh time reset. -/
def get_library_stats (cfg : PlexSectionsConfig) (interval : Nat)
    (st : LibraryCacheState) (now : Nat) (fetch : FetchOutcome) :
    List (String × SectionStats) × LibraryCacheState :=
  let refresh :=
    match fetch with
    | FetchOutcome.ok sections =>
      let stats := buildStats cfg sections
      (stats, { library_cache := stats, last_library_update := some now })
    | _ => (st.library_cache, st)
  match st.last_library_update with
  | some t => if now - t ≤ interval then (st.library_cache, st) else refresh
  | none => refresh

/-- The mutable state touched by `_update_dashboard_message`:
`self.dashboard_message_id` and the persisted message-id file contents. -/
structure DashState where
  dashboard_message_id : Option Nat
  message_id_file : Option Nat
deriving DecidableEq, Repr

/-- The Discord channel as seen by `_update_dashboard_message`: the set of
message ids `fetch_message` can still find, and the id `send` would give a
newly created message. -/
structure DashChannel where
  existing : List Nat
  next_id : Nat
deriving DecidableEq, Repr

/-- Observable actions of one `_update_dashboard_message` run. -/
inductive DashEvent where
  | edited (id : Nat)
  | created (id : Nat)
  | savedFile (id : Nat)
deriving DecidableEq, Repr

/-- Embedding of `_update_dashboard_message` (src/cogs/plex_core.py:715-730):
if an id is stored, fetch it; on success edit that message in place (no file
write); on `discord.NotFound` forget the id.  Afterwards, if no id is
stored, send a new message, store its id and persist it to the id file. -/
def _update_dashboard_message (st : DashState) (ch : DashChannel) :
    DashState × List DashEvent :=
  let (st1, evs1) :=
    match st.dashboard_message_id with
    | some m =>
      if m ∈ ch.existing then (st, [DashEvent.edited m])
      else ({ st with dashboard_message_id := none }, ([] : List DashEvent))
    | none => (st, [])
  match st1.dashboard_message_id with
  | none =>
    let nid := ch.next_id
    ({ dashboard_message_id := some nid, message_id_file := some nid },
      evs1 ++ [DashEvent.created nid, DashEvent.savedFile nid])
  | some _ => (st1, evs1)

/-- One entry of `config["presence"]["sections"]`. -/
structure PresenceSection where
  section_title : String
  display_name : String
  emoji : String
deriving DecidableEq, Repr

/-- Embeds `config["presence"]`. -/
structure PresenceConfig where
  sections : List PresenceSection
  offline_text : String
  stream_text : String
deriving DecidableEq, Repr

/-- Left-to-right non-overlapping replacement of `pat` by `rep` on character
lists, fuelled for structural recursion (the fuel is the input length, which
always suffices).  Models Python `str.replace` for a non-empty pattern. -/
def replaceFuel (pat rep : List Char) : Nat → List Char → List Char
  | _, [] => []
  | 0, s => s
  | fuel + 1, c :: rest =>
    if pat.isPrefixOf (c :: rest) then
      rep ++ replaceFuel pat rep fuel ((c :: rest).drop pat.length)
    else c :: replaceFuel pat rep fuel rest

/-- Models Python `s.replace(pat, rep)` for a non-empty pattern. -/
def pyReplace (s pat rep : String) : String :=
  String.mk (replaceFuel pat.data rep.data s.data.length s.data)

/-- Models `stream_text.format(count=n, s=...)` for the `{count}`/`{s}`
placeholders used by the presence template (field substitution behaves as
sequential replacement here because the substituted values contain no
braces). -/
def pyFormatStream (template : String) (count : Nat) : String :=
  pyReplace (pyReplace template "{count}" (toString count)) "{s}"
    (if count ≠ 1 then "s" else "")

/-- The presence-text selection of `update_status`
(src/cogs/plex_core.py:539-557) as a function of the snapshot status, the
combined active-stream count (Plex plus Jellyfin), the current library
stats and the presence configuration. -/
def updateStatusActivity (status : String) (active_streams : Nat)
    (stats : List (String × SectionStats)) (presence : PresenceConfig) :
    String :=
  if status ≠ onlineStatus then presence.offline_text
  else if active_streams > 0 then pyFormatStream presence.stream_text active_streams
  else
    let presence_parts := presence.sections.filterMap (fun sec =>
      match stats.lookup sec.section_title with
      | some sd =>
        some (thousandsDot sd.count ++ " " ++ sec.display_name ++ " " ++ sec.emoji)
      | none => none)
    if presence_parts ≠ [] then String.intercalate " | " presence_parts
    else "No streams or sections configured"

/-- The status snapshot produced by one `get_server_info` poll.  The online
dictionary has no `offline_since` key and the offline dictionary no
`uptime` key; both are `Option`s here.  `current_streams` carries only the
raw session count. -/
structure ServerInfo where
  status : String
  uptime : Option String
  offline_since : Option Nat
  library_stats : List (String × SectionStats)
  active_users : List String
  current_streams_count : Nat
deriving DecidableEq, Repr

/-- The mutable state read and written by `get_server_info` /
`connect_to_plex` / `get_offline_info` that matters for the offline
snapshot: `self.plex_start_time` and `self.offline_since`. -/
structure CoreState where
  plex_start_time : Option Nat
  offline_since : Option Nat
deriving DecidableEq, Repr

/-- Embedding of `get_offline_info` (src/cogs/plex_core.py:501-525): sets
`self.offline_since` to the current time if it is not already set, and
builds a snapshot whose stats carry every configured library with zero
counts and its configured display metadata, with no active streams. -/
def get_offline_info (cfg : PlexSectionsConfig) (offline_since : Option Nat)
    (now : Nat) : ServerInfo × Option Nat :=
  let os := match offline_since with
    | none => some now
    | some t => some t
  let stats := cfg.sections.map (fun p =>
    (p.1,
      { count := 0
        episodes := if p.2.show_episodes then 0 else 0
        display_name := p.2.display_name
        emoji := p.2.emoji
        show_episodes := p.2.show_episodes : SectionStats }))
  ({ status := offlineStatus
     uptime := none
     offline_since := os
     library_stats := stats
     active_users := []
     current_streams_count := 0 }, os)

/-- Outcome of one poll in `get_server_info`: the connection attempt failed;
the connection succeeded but the subsequent query raised; or everything
succeeded, yielding the library stats, the formatted active streams and the
raw session count. -/
inductive PollOutcome where
  | connectFail
  | queryFail
  | ok (libraryStats : List (String × SectionStats))
      (activeUsers : List String) (sessionCount : Nat)
deriving DecidableEq, Repr

/-- Embedding of `get_server_info` (src/cogs/plex_core.py:133-149) together
with `connect_to_plex` (121-131): on connection failure `plex_start_time`
is cleared and the offline snapshot returned; on connection success
`plex_start_time` is set (if unset) and `self.offline_since = None` is
executed *before* the online dictionary is built, so a failure inside the
query (`except` branch) re-enters `get_offline_info` with a cleared
timestamp. -/
def get_server_info (cfg : PlexSectionsConfig) (st : CoreState) (now : Nat)
    (poll : PollOutcome) : ServerInfo × CoreState :=
  match poll with
  | PollOutcome.connectFail =>
    let st1 : CoreState := { st with plex_start_time := none }
    let (info, os) := get_offline_info cfg st1.offline_since now
    (info, { st1 with offline_since := os })
  | PollOutcome.queryFail =>
    let start := match st.plex_start_time with
      | none => some now
      | some s => some s
    let (info, os) := get_offline_info cfg none now
    (info, { plex_start_time := start, offline_since := os })
  | PollOutcome.ok stats users sessions =>
    let start := match st.plex_start_time with
      | none => some now
      | some s => some s
    ({ status := onlineStatus
       uptime := some (calculate_uptime start now)
       offline_since := none
       library_stats := stats
       active_users := users
       current_streams_count := sessions },
     { plex_start_time := start, offline_since := none })

/-- Mojibake emoji literals exactly as in the source file. -/
def musicEmoji : String := "ðŸŽµ"

/-- The `"🎥"` literal (mojibake), the movie/video emoji. -/
def movieEmoji : String := "ðŸŽ¥"

/-- The `"📺"` literal (mojibake), the TV emoji. -/
def tvEmoji : String := "ðŸ“º"

/-- The `"⏸️"` literal (mojibake, as stored), the paused glyph. -/
def pausedEmoji : String := "â¸ï¸"

/-- The `"🔄"` literal (mojibake), the transcode glyph. -/
def transcodeEmoji : String := "ðŸ”„"

/-- The `"⏯️"` literal (mojibake, as stored), the direct-play glyph. -/
def directEmoji : String := "â¯ï¸"

/-- The filled progress-bar cell (mojibake). -/
def barFull : String := "â–“"

/-- The empty progress-bar cell (mojibake). -/
def barEmpty : String := "â–‘"

/-- The progress-line expression shared verbatim by both formatters
(src/cogs/plex_core.py:290 and :415):
`f"[{'▓' * int(pp / 10)}{'░' * (10 - int(pp / 10))}] {pp:.1f}%"`. -/
def progressBar (pp : ℚ) : String :=
  let k := (pp / 10).floor.toNat
  "[" ++ strRepeat barFull k ++ strRepeat barEmpty (10 - k) ++ "] "
    ++ formatQ1 pp ++ "%"

/-- One entry of `session.players` (only the attributes read here).
`state` is read through `getattr(..., "state", "")`; `product` is read
directly and raises when absent. -/
structure PlexPlayer where
  state : Option String
  product : Option String
deriving Repr

/-- One entry of `part.streams`. -/
structure PlexMediaStream where
  streamType : Nat
  bitDepth : Option Nat
  samplingRate : Option Nat
deriving Repr

/-- One entry of `media.parts`. -/
structure PlexMediaPart where
  streams : List PlexMediaStream
deriving Repr

/-- One entry of `session.media`. -/
structure PlexMedia where
  videoResolution : Option String
  bitrate : Option Nat
  parts : List PlexMediaPart
deriving Repr

/-- Embeds `session.transcodeSession`. -/
structure PlexTranscode where
  bitrate : Option Nat
deriving Repr

/-- A raw Plex session record as probed by `format_stream_info`.  Every
attribute the code guards with `hasattr`/`getattr` or reads directly is an
`Option`; `none` means the attribute is absent (direct reads of an absent
attribute raise `AttributeError`). -/
structure PlexSessionRec where
  usernames : Option (List String)
  librarySectionTitle : Option String
  type : Option String
  title : Option String
  grandparentTitle : Option String
  parentIndex : Option Nat
  index : Option Nat
  year : Option Nat
  viewOffset : Option Nat
  duration : Option Nat
  players : Option (List PlexPlayer)
  media : Option (List PlexMedia)
  transcodeSession : Option PlexTranscode
deriving Repr

/-- A Plex session with every attribute absent (used as a concrete
malformed record). -/
def emptyPlexSession : PlexSessionRec :=
  { usernames := none, librarySectionTitle := none, type := none
    title := none, grandparentTitle := none, parentIndex := none
    index := none, year := none, viewOffset := none, duration := none
    players := none, media := none, transcodeSession := none }

/-- Embedding of `_get_formatted_title` (src/cogs/plex_core.py:339-357).
The movie branch reads `session.title` directly, so a missing title raises. -/
def _get_formatted_title (s : PlexSessionRec) : Except Unit String :=
  if s.type = some "track" then
    let artist := s.grandparentTitle.getD "Unknown Artist"
    let track := s.title.getD "Unknown Track"
    Except.ok (artist ++ " - " ++ track)
  else if s.grandparentTitle.isSome then
    let g := s.grandparentTitle.getD ""
    let series_title :=
      (((pySplitOn ((pySplitOn g ':').headD "") '-').headD "")).trim
    let episode_info :=
      match s.parentIndex, s.index with
      | some p, some i => "S" ++ pad2 p ++ "E" ++ pad2 i
      | _, _ => ""
    Except.ok (series_title ++ " - " ++ episode_info)
  else
    match s.title with
    | none => Except.error ()
    | some t =>
      let year := match s.year with
        | some y => if y ≠ 0 then " (" ++ toString y ++ ")" else ""
        | none => ""
      Except.ok (t ++ year)

/-- The ten displayable pieces computed inside the `try` block of
`format_stream_info` / `format_jellyfin_stream_info` before the final
f-string assembly. -/
structure StreamParts where
  content_emoji : String
  title : String
  displayed_user : String
  progress_display : String
  current_time : String
  total_time : String
  transcode_emoji : String
  quality : String
  bitrate : String
  product_name : String
deriving Repr

/-- The three-line block skeleton shared by both formatters
(src/cogs/plex_core.py:324-328 and :455-459). -/
def mkStreamBlock (l1 l2 l3 : String) : String :=
  "**```" ++ l1 ++ "\n" ++ "â””â”€ " ++ l2 ++ "\n" ++ " â””â”€ " ++ l3
    ++ "```**"

/-- Line assembly of `format_stream_info` (note the space between quality
and bitrate even when the bitrate string is empty). -/
def assembleStream (p : StreamParts) : String :=
  mkStreamBlock
    (p.content_emoji ++ " " ++ p.title ++ " | " ++ p.displayed_user)
    (p.progress_display ++ " | " ++ p.current_time ++ "/" ++ p.total_time)
    (p.transcode_emoji ++ " " ++ p.quality ++ " " ++ p.bitrate ++ " | "
      ++ p.product_name)

/-- The body of the `try` block of `format_stream_info`
(src/cogs/plex_core.py:273-327), with `stats` standing for the value of
`self.get_library_stats()` and `um` for `self.user_mapping`. -/
def formatStreamInfoParts (um : List (String × String))
    (stats : List (String × SectionStats)) (s : PlexSessionRec) :
    Except Unit StreamParts := do
  let user ← match s.usernames with
    | none => Except.error ()
    | some us => Except.ok (match us with | [] => "Unbekannt" | u :: _ => u)
  let displayed_user := (um.lookup user).getD user
  let section_title := s.librarySectionTitle.getD "Unknown"
  let content_emoji :=
    let fromStats := match stats.lookup section_title with
      | some sd => if sd.emoji ≠ "" then some sd.emoji else none
      | none => none
    match fromStats with
    | some e => e
    | none =>
      let t := s.type.getD ""
      if t = "track" then musicEmoji
      else if t = "movie" then movieEmoji else tvEmoji
  let title ← _get_formatted_title s
  let progress_percent : ℚ :=
    match s.viewOffset, s.duration with
    | some v, some d => if d ≠ 0 then (v : ℚ) / (d : ℚ) * 100 else 0
    | _, _ => 0
  let is_paused := match s.players with
    | some (p :: _) => p.state.getD "" == "paused"
    | _ => false
  let progress_display :=
    if is_paused then pausedEmoji else progressBar progress_percent
  let viewOffsetV ← attr s.viewOffset
  let durationV ← attr s.duration
  let current_time ← attr (plexRenderTime viewOffsetV durationV)
  let total_time ← attr (plexRenderTime durationV durationV)
  let media : Option PlexMedia := match s.media with
    | some (m :: _) => some m
    | _ => none
  let quality :=
    if s.type.getD "" = "track" then
      let audio_stream : Option PlexMediaStream := match media with
        | some m =>
          ((m.parts.map (fun part => part.streams)).flatten).find?
            (fun st => st.streamType = 2)
        | none => none
      let q1 := match audio_stream with
        | some a =>
          match a.bitDepth with
          | some bd => if bd ≠ 0 then toString bd ++ "bit" else ""
          | none => ""
        | none => ""
      let q2 := match audio_stream with
        | some a =>
          match a.samplingRate with
          | some sr =>
            if sr ≠ 0 then
              if q1 ≠ "" then q1 ++ " " ++ toString (sr / 1000) ++ "kHz"
              else toString (sr / 1000) ++ "kHz"
            else q1
          | none => q1
        | none => q1
      if q2 ≠ "" then q2 else "Audio"
    else
      let q0 := match media with
        | some m => (m.videoResolution.getD "1080") ++ "p"
        | none => "1080p"
      if q0.endsWith "pp" then q0.dropRight 1
      else if q0 = "4kp" ∨ q0 = "4Kp" then "4K" else q0
  let transcode_emoji :=
    if s.transcodeSession.isSome then transcodeEmoji else directEmoji
  let tsBitrate : Nat := match s.transcodeSession with
    | some ts => ts.bitrate.getD 0
    | none => 0
  let mBitrate : Nat := match media with
    | some m => m.bitrate.getD 0
    | none => 0
  let bitrate :=
    if tsBitrate ≠ 0 then formatQ1 ((tsBitrate : ℚ) / 1000) ++ " Mbps"
    else if mBitrate ≠ 0 then formatQ1 ((mBitrate : ℚ) / 1000) ++ " Mbps"
    else ""
  let product_name ← match s.players with
    | some (p :: _) =>
      match p.product with
      | some prod =>
        Except.ok (pyReplace (pyReplace prod "Plex for " "") "Infuse-Library" "Infuse")
      | none => Except.error ()
    | _ => Except.ok "Unknown"
  pure { content_emoji, title, displayed_user, progress_display,
         current_time, total_time, transcode_emoji, quality, bitrate,
         product_name }

/-- The numbered Plex placeholder returned by the `except` handler
(src/cogs/plex_core.py:331): `f"```❓ Stream could not be loaded (# {idx})```"`
(mojibake question mark, and a space between `#` and the index). -/
def plexPlaceholder (idx : Nat) : String :=
  "```â“ Stream could not be loaded (# " ++ toString idx ++ ")```"

/-- Embedding of `format_stream_info` (src/cogs/plex_core.py:271-331): the
whole body runs inside `try`; any exception is caught and replaced by the
numbered placeholder. -/
def format_stream_info (um : List (String × String))
    (stats : List (String × SectionStats)) (s : PlexSessionRec) (idx : Nat) :
    String :=
  match formatStreamInfoParts um stats s with
  | Except.ok p => assembleStream p
  | Except.error _ => plexPlaceholder idx

/-- Embedding of `get_active_streams` (src/cogs/plex_core.py:221-233): the
list comprehension enumerates sessions from 1 and keeps each formatted
string if it is truthy (non-empty). -/
def get_active_streams (um : List (String × String))
    (stats : List (String × SectionStats)) (sessions : List PlexSessionRec) :
    List String :=
  (List.enumFrom 1 sessions).filterMap (fun p =>
    let info := format_stream_info um stats p.2 p.1
    if info ≠ "" then some info else none)

/-- One entry of the Jellyfin `MediaStreams` array (only the keys read
here); `height` is `.get("Height")` with no default. -/
structure JFVideoStream where
  type : Option String
  height : Option Nat
deriving Repr

/-- The Jellyfin `NowPlayingItem` JSON object.  For the numeric keys that
feed `f"...{..:02d}"` formatting or arithmetic, the outer `Option` models
key absence (handled by the `.get` default) and the inner `Option` models
an explicit JSON `null` (which makes the arithmetic/formatting raise a
`TypeError`). -/
structure JFItem where
  type : Option String
  seriesName : Option String
  parentIndexNumber : Option (Option Nat)
  indexNumber : Option (Option Nat)
  name : Option String
  productionYear : Option Nat
  runTimeTicks : Option (Option Nat)
  mediaStreams : Option (List JFVideoStream)
  bitrate : Option Nat
deriving Repr

/-- Models `session.get("NowPlayingItem", {})` on a missing key: an empty dict,
every lookup in it returning its default. -/
def emptyJFItem : JFItem :=
  { type := none, seriesName := none, parentIndexNumber := none
    indexNumber := none, name := none, productionYear := none
    runTimeTicks := none, mediaStreams := none, bitrate := none }

/-- The Jellyfin `PlayState` JSON object. -/
structure JFPlayState where
  positionTicks : Option (Option Nat)
  isPaused : Option Bool
deriving Repr

/-- Models `session.get("PlayState", {})` on a missing key. -/
def emptyJFPlayState : JFPlayState :=
  { positionTicks := none, isPaused := none }

/-- The Jellyfin `TranscodingInfo` JSON object. -/
structure JFTranscodingInfo where
  bitrate : Option Nat
deriving Repr

/-- A raw Jellyfin session JSON record as probed by
`format_jellyfin_stream_info`. -/
structure JFSession where
  nowPlayingItem : Option JFItem
  playState : Option JFPlayState
  userName : Option String
  transcodingInfo : Option JFTranscodingInfo
  client : Option String
  deviceName : Option String
deriving Repr

/-- Embedding of `_get_jellyfin_formatted_title`
(src/cogs/plex_core.py:464-478).  A `null` `ParentIndexNumber` or
`IndexNumber` makes the `f"S{..:02d}E{..:02d}"` formatting raise. -/
def _get_jellyfin_formatted_title (np : JFItem) : Except Unit String :=
  if np.type.getD "Video" = "Episode" then do
    let series_title :=
      ((pySplitOn ((pySplitOn (np.seriesName.getD "Unknown Show") ':').headD
        "") '-').headD "").trim
    let season_num ← jnum (np.parentIndexNumber.getD (some 0))
    let episode_num ← jnum (np.indexNumber.getD (some 0))
    pure (series_title ++ " - S" ++ pad2 season_num ++ "E" ++ pad2 episode_num)
  else
    let title := np.name.getD "Unknown"
    match np.productionYear with
    | some y =>
      if y ≠ 0 then Except.ok (title ++ " (" ++ toString y ++ ")")
      else Except.ok title
    | none => Except.ok title

/-- Line assembly of `format_jellyfin_stream_info` (no space between
quality and bitrate — the bitrate string carries its own leading space —
and a trailing `" (JF)"` marker). -/
def assembleJellyfinStream (p : StreamParts) : String :=
  mkStreamBlock
    (p.content_emoji ++ " " ++ p.title ++ " | " ++ p.displayed_user)
    (p.progress_display ++ " | " ++ p.current_time ++ "/" ++ p.total_time)
    (p.transcode_emoji ++ " " ++ p.quality ++ p.bitrate ++ " | "
      ++ p.product_name ++ " (JF)")

/-- The body of the `try` block of `format_jellyfin_stream_info`
(src/cogs/plex_core.py:391-459). -/
def formatJellyfinParts (um : List (String × String)) (s : JFSession) :
    Except Unit StreamParts := do
  let now_playing := s.nowPlayingItem.getD emptyJFItem
  let play_state := s.playState.getD emptyJFPlayState
  let user := s.userName.getD "Unknown"
  let displayed_user := (um.lookup user).getD user
  let media_type := now_playing.type.getD "Video"
  let content_emoji := if media_type = "Episode" then tvEmoji else movieEmoji
  let title ← _get_jellyfin_formatted_title now_playing
  let position_ticks_v := play_state.positionTicks.getD (some 0)
  let runtime_ticks_v := now_playing.runTimeTicks.getD (some 0)
  let runtime_ticks ← jnum runtime_ticks_v
  let progress_percent : ℚ ←
    if runtime_ticks > 0 then do
      let pos ← jnum position_ticks_v
      pure ((pos : ℚ) / (runtime_ticks : ℚ) * 100)
    else pure 0
  let is_paused := play_state.isPaused.getD false
  let progress_display :=
    if is_paused then pausedEmoji else progressBar progress_percent
  let position_ticks ← jnum position_ticks_v
  let current_seconds := position_ticks / 10000000
  let total_seconds := runtime_ticks / 10000000
  let current_time := _format_jellyfin_time current_seconds total_seconds
  let total_time := _format_jellyfin_time total_seconds total_seconds
  let media_streams := now_playing.mediaStreams.getD []
  let video_stream := media_streams.find? (fun ms => ms.type == some "Video")
  let quality := match video_stream with
    | some vs =>
      match vs.height with
      | some h => if h ≠ 0 then (if h ≥ 2160 then "4K" else toString h ++ "p")
                  else "Video"
      | none => "Video"
    | none => "Video"
  let transcode_emoji :=
    if s.transcodingInfo.isSome then transcodeEmoji else directEmoji
  let tBitrate : Nat := match s.transcodingInfo with
    | some t => t.bitrate.getD 0
    | none => 0
  let bitrate :=
    if s.transcodingInfo.isSome ∧ tBitrate > 0 then
      " " ++ formatQ1 ((tBitrate : ℚ) / 1000000) ++ " Mbps"
    else if now_playing.bitrate.getD 0 > 0 then
      " " ++ formatQ1 ((now_playing.bitrate.getD 0 : ℚ) / 1000000) ++ " Mbps"
    else ""
  let client := s.client.getD "Unknown"
  let device_name := s.deviceName.getD ""
  let product_name := if client ≠ "Unknown" then client else device_name
  pure { content_emoji, title, displayed_user, progress_display,
         current_time, total_time, transcode_emoji, quality, bitrate,
         product_name }

/-- The numbered Jellyfin placeholder returned by the `except` handler
(src/cogs/plex_core.py:462). -/
def jellyfinPlaceholder (idx : Nat) : String :=
  "```â“ Jellyfin stream could not be loaded (# " ++ toString idx ++ ")```"

/-- Embedding of `format_jellyfin_stream_info`
(src/cogs/plex_core.py:389-462). -/
def format_jellyfin_stream_info (um : List (String × String)) (s : JFSession)
    (idx : Nat) : String :=
  match formatJellyfinParts um s with
  | Except.ok p => assembleJellyfinStream p
  | Except.error _ => jellyfinPlaceholder idx

/-- Embedding of `get_jellyfin_streams` (src/cogs/plex_core.py:491-499):
format each active session, enumerating from 1, and keep truthy results. -/
def get_jellyfin_streams (um : List (String × String))
    (sessions : List JFSession) : List String :=
  (List.enumFrom 1 sessions).filterMap (fun p =>
    let info := format_jellyfin_stream_info um p.2 p.1
    if info ≠ "" then some info else none)

/-- Embeds `info["downloads"]` as returned by the SABnzbd sibling cog: the
in-progress list and the two disk-space strings. -/
structure DownloadsInfo where
  downloads : List Download
  diskspace1 : String
  diskspacetotal1 : String
deriving DecidableEq, Repr

/-- The slice of the combined dashboard snapshot read by
`_add_embed_fields` in the online case. -/
structure DashboardInfo where
  uptime : String
  library_stats : List (String × SectionStats)
  active_users : List String
  downloads : Option DownloadsInfo
deriving Repr

/-- The `"💤 *No active streams currently*"` literal (mojibake). -/
def noStreamsText : String := "ðŸ’¤ *No active streams currently*"

/-- The `"💤 *No active downloads currently*"` literal (mojibake). -/
def noDownloadsText : String := "ðŸ’¤ *No active downloads currently*"

/-- The `"Downloads 📥"` (mojibake) aggregate-size field name. -/
def downloadsFieldName : String := "Downloads ðŸ“¥"

/-- Embedding of `_add_embed_fields` (src/cogs/plex_core.py:648-702) as the
ordered list of `(name, value)` embed fields it adds.  `fmtDl` stands for
the sibling cog's `format_download_info`.  `none` models an uncaught
exception raised by `_calculate_total_size` on a malformed size string. -/
def _add_embed_fields (cfg : PlexSectionsConfig)
    (fmtDl : Download → Nat → String) (info : DashboardInfo) :
    Option (List (String × String)) := do
  let base := [("Server Uptime ðŸ–¥ï¸", "```" ++ info.uptime ++ "```"),
               ("", ""), ("", "")]
  let configuredTitles := cfg.sections.map (fun p => p.1)
  let sections_to_display :=
    if !cfg.show_all then configuredTitles
    else configuredTitles ++
      (info.library_stats.map (fun p => p.1)).filter
        (fun t => !(configuredTitles.contains t))
  let libFields := (sections_to_display.map (fun title =>
    match info.library_stats.lookup title with
    | some sd =>
      (sd.display_name ++ " " ++ sd.emoji,
        "```" ++ thousandsDot sd.count ++ "```") ::
      (if sd.show_episodes then
        [(sd.display_name ++ " Episodes " ++ tvEmoji,
          "```" ++ thousandsDot sd.episodes ++ "```")]
       else [])
    | none => [])).flatten
  let streamFields :=
    if info.active_users ≠ [] then
      let stream_count := info.active_users.length
      let streams_limited := info.active_users.take 8
      let streams_text := String.intercalate " " streams_limited
      [(toString stream_count ++ " current Stream"
          ++ (if stream_count ≠ 1 then "s" else "") ++ ":"
          ++ (if stream_count > 8
              then " (showing 8 of " ++ toString stream_count ++ ")" else ""),
        streams_text)]
    else [("Current Streams:", noStreamsText)]
  let downloadFields ←
    match info.downloads with
    | some dls =>
      if dls.downloads ≠ [] then do
        let downloads := dls.downloads.take 4
        let download_count := dls.downloads.length
        let downloads_text := String.intercalate "\n"
          ((List.enum downloads).map (fun p => fmtDl p.2 p.1))
        let total ← _calculate_total_size downloads
        pure [(toString download_count ++ " current Download"
                 ++ (if download_count ≠ 1 then "s" else "") ++ ":",
               downloads_text),
              (downloadsFieldName, "```" ++ total ++ "```"),
              ("Free Space ðŸ’¾", "```" ++ dls.diskspace1 ++ "```"),
              ("Total Space ðŸ—„ï¸", "```" ++ dls.diskspacetotal1 ++ "```")]
      else pure [("Current Downloads:", noDownloadsText)]
    | none => pure [("Current Downloads:", noDownloadsText)]
  pure (base ++ libFields ++ streamFields ++ downloadFields)

/-! ## Concrete instances used by the claim theorems -/

/-- Concrete data for the cache-boundary analysis. -/
def c2cfg : PlexSectionsConfig := { show_all := true, sections := [] }

/-- A concrete live section list for the cache-boundary analysis. -/
def c2sec : PlexSection := { title := "Movies", items := 5, leafTotal := 0 }

/-- A cache state whose last refresh happened at time 0. -/
def c2st : LibraryCacheState := { library_cache := [], last_library_update := some 0 }

/-- A presence configuration with no presence sections, used to exhibit the
fourth presence text. -/
def c5cfg : PresenceConfig :=
  { sections := [], offline_text := "OFF",
    stream_text := "{count} active Stream{s}" }

/-- A one-library configuration used to exercise the offline snapshot. -/
def c9cfg : PlexSectionsConfig :=
  { show_all := true,
    sections := [("Movies",
      { display_name := "Filme", emoji := "M", show_episodes := false })] }

/-- The claim-side normalization of one labeled size to megabytes: KB
divided by 1024, GB multiplied by 1024, MB unchanged. -/
def normalizedMB (v : ℚ) (u : String) : ℚ :=
  if u = "KB" then v / 1024 else if u = "GB" then v * 1024 else v

/-- A download whose size string is a well-formed `"<value> <unit>"` with
value `p.1` and unit label `p.2` one of KB/MB/GB. -/
def SizeSpec (d : Download) (p : ℚ × String) : Prop :=
  d.size ≠ "Unknown" ∧
  (∃ vstr, pySplitWS d.size = [vstr, p.2] ∧ parseDecimal vstr = some p.1) ∧
  (p.2 = "KB" ∨ p.2 = "MB" ∨ p.2 = "GB")

/-- The spec's concrete aggregation example. -/
def c8downloads : List Download :=
  [{ size := "512 KB" }, { size := "1 MB" }, { size := "2 GB" }]

/-- Five in-progress downloads, of which only the first four feed the
aggregate; the slice holds an `"Unknown"` size and an unrecognized unit. -/
def c10dls : DownloadsInfo :=
  { downloads := [{ size := "Unknown" }, { size := "5 XB" },
                  { size := "512 KB" }, { size := "1 MB" }, { size := "2 GB" }],
    diskspace1 := "100 GB", diskspacetotal1 := "200 GB" }

/-- A dashboard snapshot carrying the five downloads above. -/
def c10info : DashboardInfo :=
  { uptime := "00:05", library_stats := [], active_users := [],
    downloads := some c10dls }

/-! ## Helper lemmas -/

lemma append_ne_empty_right (a b : String) (h : b.data ≠ []) : a ++ b ≠ "" := by
  intro hc
  have hd : (a ++ b).data = [] := by rw [hc]
  rw [String.data_append] at hd
  exact h (List.append_eq_nil.mp hd).2

lemma mkStreamBlock_ne_empty (a b c : String) : mkStreamBlock a b c ≠ "" :=
  append_ne_empty_right _ _ (by decide)

lemma plexPlaceholder_ne_empty (idx : Nat) : plexPlaceholder idx ≠ "" :=
  append_ne_empty_right _ _ (by decide)

lemma jellyfinPlaceholder_ne_empty (idx : Nat) : jellyfinPlaceholder idx ≠ "" :=
  append_ne_empty_right _ _ (by decide)

lemma newline_mem_mkStreamBlock (a b c : String) :
    '\n' ∈ (mkStreamBlock a b c).data := by
  unfold mkStreamBlock
  simp only [String.data_append]
  exact List.mem_append_left _ (List.mem_append_left _ (List.mem_append_left _
    (List.mem_append_right _ (by decide))))

/-! ## C7 : uptime rendering -/

/-- C7: for a recorded connection start, `calculate_uptime` renders the
elapsed whole minutes as `HH:MM`, saturating to `"99+ Hours"` once the
elapsed hours exceed 99, and renders `"Offline"` when no start is known. -/
theorem c7_uptime_rendering :
    (∀ now, calculate_uptime none now = "Offline") ∧
    (∀ s now, 0 < s → (now - s) / 3600 > 99 →
      calculate_uptime (some s) now = "99+ Hours") ∧
    (∀ s now, 0 < s → (now - s) / 3600 ≤ 99 →
      calculate_uptime (some s) now =
        pad2 ((now - s) / 3600) ++ ":" ++ pad2 ((now - s) / 60 % 60)) := by
  refine ⟨fun now => rfl, ?_, ?_⟩
  · intro s now hs h
    simp only [calculate_uptime]
    rw [if_neg (by omega), Nat.div_div_eq_div_mul]
    norm_num
    intro h2
    exact absurd h2 (by omega)
  · intro s now hs h
    simp only [calculate_uptime]
    rw [if_neg (by omega), Nat.div_div_eq_div_mul]
    norm_num
    intro h2
    exact absurd h2 (by omega)

/-- Witness for C7 at the spec's example points: 100 hours elapsed
saturates, 90 minutes elapsed renders `"01:30"`, no start renders
`"Offline"`. -/
theorem c7_uptime_rendering_witness :
    calculate_uptime (some 1) 360001 = "99+ Hours" ∧
    calculate_uptime (some 1) 5401 = "01:30" ∧
    calculate_uptime none 77 = "Offline" := by
  refine ⟨c7_uptime_rendering.2.1 1 360001 (by norm_num) (by norm_num), ?_,
    c7_uptime_rendering.1 77⟩
  have h := c7_uptime_rendering.2.2 1 5401 (by norm_num) (by norm_num)
  rw [h]; rfl

/-! ## C3 : failed refresh preserves the cache -/

/-- C3: whenever the refresh attempt fails — no connection, or an exception
during the query — `get_library_stats` returns the last good cache and the
cache state (cache contents and staleness clock) is exactly what it was
before the call, including the empty first-run cache. -/
theorem c3_failed_refresh_preserves_cache :
    ∀ cfg interval st now,
      get_library_stats cfg interval st now FetchOutcome.noConn =
        (st.library_cache, st) ∧
      get_library_stats cfg interval st now FetchOutcome.queryError =
        (st.library_cache, st) := by
  intro cfg interval st now
  constructor <;>
    · unfold get_library_stats
      rcases st.last_library_update with _ | t
      · rfl
      · dsimp only
        split <;> rfl

/-! ## C2 : cache staleness boundary -/




/-- C2 counterexample: with interval 900 and elapsed time exactly 900
(`elapsed ≥ interval`, so stale per the claim) and a reachable server, the
code still takes the fresh path (`elapsed ≤ interval`): the cache is
returned and the state left untouched, even though a refresh would have
produced a different, non-empty cache. -/
theorem c2_boundary_counterexample :
    900 - 0 ≥ 900 ∧
    get_library_stats c2cfg 900 c2st 900 (FetchOutcome.ok [c2sec]) =
      (([] : List (String × SectionStats)), c2st) ∧
    buildStats c2cfg [c2sec] ≠ [] := by decide

/-- C2 amended: the fresh/stale boundary is inclusive — the cache is
replaced wholesale and the clock reset when the server data arrives and the
cache is *strictly* older than the interval (or was never filled); it is
returned untouched, regardless of reachability, when `elapsed ≤ interval`. -/
theorem c2_cache_refresh_amended :
    (∀ cfg interval st now secs,
      (st.last_library_update = none ∨
        ∃ t, st.last_library_update = some t ∧ interval < now - t) →
      get_library_stats cfg interval st now (FetchOutcome.ok secs) =
        (buildStats cfg secs,
         { library_cache := buildStats cfg secs,
           last_library_update := some now })) ∧
    (∀ cfg interval st now t fetch,
      st.last_library_update = some t → now - t ≤ interval →
      get_library_stats cfg interval st now fetch = (st.library_cache, st)) := by
  constructor
  · intro cfg interval st now secs h
    unfold get_library_stats
    rcases h with h | ⟨t, h1, h2⟩
    · rw [h]
    · rw [h1]
      dsimp only
      rw [if_neg (by omega)]
  · intro cfg interval st now t fetch h1 h2
    unfold get_library_stats
    rw [h1]
    dsimp only
    rw [if_pos h2]

/-- Witness for C2 (amended): a strictly-stale reachable refresh replaces
the cache and resets the clock; at the inclusive boundary the cache is
untouched. -/
theorem c2_cache_refresh_amended_witness :
    get_library_stats c2cfg 900 c2st 901 (FetchOutcome.ok [c2sec]) =
      (buildStats c2cfg [c2sec],
       { library_cache := buildStats c2cfg [c2sec],
         last_library_update := some 901 }) ∧
    get_library_stats c2cfg 900 c2st 900 FetchOutcome.noConn =
      (c2st.library_cache, c2st) :=
  ⟨c2_cache_refresh_amended.1 c2cfg 900 c2st 901 [c2sec]
      (Or.inr ⟨0, rfl, by norm_num⟩),
   c2_cache_refresh_amended.2 c2cfg 900 c2st 900 0 FetchOutcome.noConn rfl
      (by norm_num)⟩

/-! ## C4 : dashboard message upsert -/

/-- C4: when a stored message id is still present in the channel, the update
edits that message in place — same id, unchanged state, no file write; when
the stored id's fetch reports the message missing, the id is forgotten, a
new message is sent, and the new id is stored and persisted to the id file. -/
theorem c4_dashboard_upsert (st : DashState) (ch : DashChannel) (m : Nat) :
    (st.dashboard_message_id = some m → m ∈ ch.existing →
      _update_dashboard_message st ch = (st, [DashEvent.edited m])) ∧
    (st.dashboard_message_id = some m → m ∉ ch.existing →
      _update_dashboard_message st ch =
        ({ dashboard_message_id := some ch.next_id,
           message_id_file := some ch.next_id },
         [DashEvent.created ch.next_id, DashEvent.savedFile ch.next_id])) := by
  constructor
  · intro h hm
    unfold _update_dashboard_message
    rw [h]
    dsimp only
    rw [if_pos hm, h]
  · intro h hm
    unfold _update_dashboard_message
    rw [h]
    dsimp only
    rw [if_neg hm]
    rfl

/-- Witness for C4: id 5 present in the channel is edited in place with no
file write; id 5 absent leads to a fresh message 9 stored and persisted. -/
theorem c4_dashboard_upsert_witness :
    _update_dashboard_message
        { dashboard_message_id := some 5, message_id_file := some 5 }
        { existing := [5], next_id := 9 } =
      ({ dashboard_message_id := some 5, message_id_file := some 5 },
       [DashEvent.edited 5]) ∧
    _update_dashboard_message
        { dashboard_message_id := some 5, message_id_file := some 5 }
        { existing := [], next_id := 9 } =
      ({ dashboard_message_id := some 9, message_id_file := some 9 },
       [DashEvent.created 9, DashEvent.savedFile 9]) :=
  ⟨(c4_dashboard_upsert _ _ 5).1 rfl (by decide),
   (c4_dashboard_upsert _ _ 5).2 rfl (by decide)⟩

/-! ## C5 : presence text priority -/


/-- C5 counterexample: online with zero streams and no presence library in
the stats, the code emits the fixed fallback text, which is none of the
three texts the claim allows (in particular it is not the `" | "`-join of
the — empty — included-library list). -/
theorem c5_fallback_counterexample :
    updateStatusActivity onlineStatus 0 [] c5cfg =
      "No streams or sections configured" ∧
    "No streams or sections configured" ≠
      String.intercalate " | " ([] : List String) ∧
    "No streams or sections configured" ≠ c5cfg.offline_text ∧
    "No streams or sections configured" ≠ pyFormatStream c5cfg.stream_text 0 := by
  refine ⟨rfl, by decide, by decide, ?_⟩
  decide

/-- C5 amended: the presence text is chosen deterministically with strict
priority offline ▸ stream count ▸ library summary, but when no configured
presence library is present in the current stats the fixed text
`"No streams or sections configured"` is used instead of the (empty)
summary. -/
theorem c5_presence_priority_amended (status : String) (n : Nat)
    (stats : List (String × SectionStats)) (cfg : PresenceConfig) :
    (status ≠ onlineStatus →
      updateStatusActivity status n stats cfg = cfg.offline_text) ∧
    (status = onlineStatus → 0 < n →
      updateStatusActivity status n stats cfg =
        pyFormatStream cfg.stream_text n) ∧
    (status = onlineStatus → n = 0 →
      updateStatusActivity status n stats cfg =
        (let parts := cfg.sections.filterMap (fun sec =>
          (stats.lookup sec.section_title).map (fun sd =>
            thousandsDot sd.count ++ " " ++ sec.display_name ++ " " ++ sec.emoji))
         if parts = [] then "No streams or sections configured"
         else String.intercalate " | " parts)) := by
  refine ⟨fun h => ?_, fun h hn => ?_, fun h hn => ?_⟩
  · unfold updateStatusActivity
    rw [if_pos h]
  · unfold updateStatusActivity
    rw [if_neg (by simp [h]), if_pos hn]
  · unfold updateStatusActivity
    rw [if_neg (by simp [h]), if_neg (by omega)]
    dsimp only
    have hfun : (fun sec =>
        match stats.lookup sec.section_title with
        | some sd =>
          some (thousandsDot sd.count ++ " " ++ sec.display_name ++ " " ++ sec.emoji)
        | none => none) =
        (fun sec : PresenceSection =>
          (stats.lookup sec.section_title).map (fun sd =>
            thousandsDot sd.count ++ " " ++ sec.display_name ++ " " ++ sec.emoji)) := by
      funext sec
      rcases stats.lookup sec.section_title with _ | sd <;> rfl
  -- ^ align the comprehension with the claim-side map form
    rw [hfun]
    by_cases hp : (cfg.sections.filterMap (fun sec : PresenceSection =>
        (stats.lookup sec.section_title).map (fun sd =>
          thousandsDot sd.count ++ " " ++ sec.display_name ++ " "
            ++ sec.emoji))) = []
    · rw [if_neg (not_not_intro hp), if_pos hp]
    · rw [if_pos hp, if_neg hp]

/-- Witness for C5 (amended), exercising all three priorities at concrete
inputs. -/
theorem c5_presence_priority_amended_witness :
    updateStatusActivity offlineStatus 3 [] c5cfg = "OFF" ∧
    updateStatusActivity onlineStatus 2 [] c5cfg = "2 active Streams" ∧
    updateStatusActivity onlineStatus 0 [] c5cfg =
      "No streams or sections configured" := by
  refine ⟨?_, ?_, ?_⟩
  · have h := (c5_presence_priority_amended offlineStatus 3 [] c5cfg).1 (by decide)
    rw [h]
    rfl
  · have h := (c5_presence_priority_amended onlineStatus 2 [] c5cfg).2.1 rfl
      (by norm_num)
    rw [h]
    rfl
  · have h := (c5_presence_priority_amended onlineStatus 0 [] c5cfg).2.2 rfl rfl
    rw [h]
    rfl

/-! ## C9 : offline snapshot invariant -/


/-- C9 counterexample: two consecutive failing polls — first a connection
failure at time 10, then a poll at time 20 whose connection succeeds but
whose query fails — both return offline snapshots, yet the offline
timestamp is reset from 10 to 20, because `get_server_info` clears
`self.offline_since` as soon as the connection succeeds, before the query
runs. -/
theorem c9_offline_timestamp_counterexample :
    (get_server_info c9cfg { plex_start_time := none, offline_since := none }
        10 PollOutcome.connectFail).1.status = offlineStatus ∧
    (get_server_info c9cfg
        (get_server_info c9cfg { plex_start_time := none, offline_since := none }
          10 PollOutcome.connectFail).2
        20 PollOutcome.queryFail).1.status = offlineStatus ∧
    (get_server_info c9cfg { plex_start_time := none, offline_since := none }
        10 PollOutcome.connectFail).1.offline_since = some 10 ∧
    (get_server_info c9cfg
        (get_server_info c9cfg { plex_start_time := none, offline_since := none }
          10 PollOutcome.connectFail).2
        20 PollOutcome.queryFail).1.offline_since = some 20 ∧
    (10 : Nat) ≠ 20 := by decide

/-- C9 amended: the offline timestamp is set on the first failing poll and
kept unchanged across consecutive *connection-failure* polls; it is cleared
as soon as a connection succeeds — so a poll whose connection succeeds but
whose query then fails returns an offline snapshot whose timestamp restarts
at that poll.  Every offline snapshot carries each configured library with
its display metadata and zero counts, and empty stream lists. -/
theorem c9_offline_snapshot_amended (cfg : PlexSectionsConfig)
    (st : CoreState) (now t : Nat) :
    (st.offline_since = some t →
      (get_server_info cfg st now PollOutcome.connectFail).1.offline_since = some t ∧
      (get_server_info cfg st now PollOutcome.connectFail).2.offline_since = some t) ∧
    (st.offline_since = none →
      (get_server_info cfg st now PollOutcome.connectFail).1.offline_since = some now ∧
      (get_server_info cfg st now PollOutcome.connectFail).2.offline_since = some now) ∧
    (∀ stats users k,
      (get_server_info cfg st now (PollOutcome.ok stats users k)).1.status = onlineStatus ∧
      (get_server_info cfg st now (PollOutcome.ok stats users k)).1.offline_since = none ∧
      (get_server_info cfg st now (PollOutcome.ok stats users k)).2.offline_since = none) ∧
    ((get_server_info cfg st now PollOutcome.queryFail).1.offline_since = some now ∧
      (get_server_info cfg st now PollOutcome.queryFail).2.offline_since = some now) ∧
    (∀ p, p = PollOutcome.connectFail ∨ p = PollOutcome.queryFail →
      (get_server_info cfg st now p).1.status = offlineStatus ∧
      (get_server_info cfg st now p).1.library_stats =
        cfg.sections.map (fun s =>
          (s.1, { count := 0, episodes := 0, display_name := s.2.display_name,
                  emoji := s.2.emoji, show_episodes := s.2.show_episodes })) ∧
      (get_server_info cfg st now p).1.active_users = [] ∧
      (get_server_info cfg st now p).1.current_streams_count = 0) := by
  refine ⟨fun h => ?_, fun h => ?_, fun stats users k => ⟨rfl, rfl, rfl⟩,
    ⟨rfl, rfl⟩, fun p hp => ?_⟩
  · simp [get_server_info, get_offline_info, h]
  · simp [get_server_info, get_offline_info, h]
  · have hstats : ∀ q : String × SectionConfig,
        ({ count := 0, episodes := if q.2.show_episodes then 0 else 0,
           display_name := q.2.display_name, emoji := q.2.emoji,
           show_episodes := q.2.show_episodes : SectionStats }) =
        ({ count := 0, episodes := 0, display_name := q.2.display_name,
           emoji := q.2.emoji, show_episodes := q.2.show_episodes }) := by
      intro q
      cases hq : q.2.show_episodes <;> simp [hq]
    rcases hp with rfl | rfl <;>
      refine ⟨rfl, ?_, rfl, rfl⟩ <;>
        · simp only [get_server_info, get_offline_info]
          exact List.map_congr_left (fun q _ => by rw [hstats q])

/-- Witness for C9 (amended) at concrete states. -/
theorem c9_offline_snapshot_amended_witness :
    (get_server_info c9cfg { plex_start_time := none, offline_since := some 3 }
        7 PollOutcome.connectFail).1.offline_since = some 3 ∧
    (get_server_info c9cfg { plex_start_time := none, offline_since := none }
        7 PollOutcome.connectFail).1.offline_since = some 7 ∧
    (get_server_info c9cfg { plex_start_time := none, offline_since := some 3 }
        7 PollOutcome.connectFail).1.library_stats =
      [("Movies", { count := 0, episodes := 0, display_name := "Filme",
                    emoji := "M", show_episodes := false })] :=
  ⟨((c9_offline_snapshot_amended c9cfg
      { plex_start_time := none, offline_since := some 3 } 7 3).1 rfl).1,
   ((c9_offline_snapshot_amended c9cfg
      { plex_start_time := none, offline_since := none } 7 0).2.1 rfl).1,
   by
    have h := ((c9_offline_snapshot_amended c9cfg
      { plex_start_time := none, offline_since := some 3 } 7 3).2.2.2.2
        PollOutcome.connectFail (Or.inl rfl)).2.1
    rw [h]
    rfl⟩

/-! ## C6 : playback time formatting -/

lemma pyIntNat_pad2 : ∀ n < 100, pyIntNat (pad2 n) = some n := by decide

lemma pyIntNat_toString : ∀ n < 24, pyIntNat (toString n) = some n := by decide

lemma tdParts_of_lt (ms : Nat) (h : ms < 86400000) :
    tdParts ms = [toString (ms / 1000 / 3600), pad2 (ms / 1000 % 3600 / 60),
      pad2 (ms / 1000 % 60)] := by
  have hs : ms / 1000 < 86400 := by omega
  unfold tdParts
  simp [Nat.div_eq_of_lt hs, Nat.mod_eq_of_lt hs]

lemma format_time_mm (x y z : String) (dur m s : Nat)
    (hlt : dur / 1000 < 3600) (hy : pyIntNat y = some m)
    (hz : pyIntNat z = some s) :
    _format_time [x, y, z] dur = some (pad2 m ++ ":" ++ pad2 s) := by
  unfold _format_time
  rw [if_pos hlt]
  simp [pyIdx, hy, hz]

lemma format_time_hms (x y z : String) (dur h m s : Nat)
    (hge : ¬ dur / 1000 < 3600) (hx : pyIntNat x = some h)
    (hy : pyIntNat y = some m) (hz : pyIntNat z = some s) :
    _format_time [x, y, z] dur =
      some (toString h ++ ":" ++ pad2 m ++ ":" ++ pad2 s) := by
  unfold _format_time
  rw [if_neg hge]
  simp [pyIdx, hx, hy, hz]

/-- C6 counterexample: at position and duration of 24 hours (86,400,000 ms,
a duration well over one hour), the Plex time path renders no `H:MM:SS`
string at all — `str(timedelta(...))` acquires a `"1 day, "` prefix on
which `int()` raises, so the formatter falls through to the per-record
placeholder instead. -/
theorem c6_time_format_counterexample :
    plexRenderTime 86400000 86400000 = none ∧ 3600 ≤ 86400000 / 1000 := by
  decide

/-- C6 amended: for positions below 24 hours, both the Plex path and the
Jellyfin path render `MM:SS` when the total duration is under one hour and
`H:MM:SS` otherwise, and position 0 with duration 0 renders `"00:00"`; the
Plex path raises (placeholder) for positions of 24 hours or more. -/
theorem c6_time_format_amended :
    (∀ pos dur, pos < 86400000 → dur / 1000 < 3600 →
      plexRenderTime pos dur =
        some (pad2 (pos / 1000 % 3600 / 60) ++ ":" ++ pad2 (pos / 1000 % 60))) ∧
    (∀ pos dur, pos < 86400000 → 3600 ≤ dur / 1000 →
      plexRenderTime pos dur =
        some (toString (pos / 1000 / 3600) ++ ":" ++ pad2 (pos / 1000 % 3600 / 60)
          ++ ":" ++ pad2 (pos / 1000 % 60))) ∧
    (∀ s t, t < 3600 →
      _format_jellyfin_time s t = pad2 (s % 3600 / 60) ++ ":" ++ pad2 (s % 60)) ∧
    (∀ s t, 3600 ≤ t →
      _format_jellyfin_time s t =
        toString (s / 3600) ++ ":" ++ pad2 (s % 3600 / 60) ++ ":" ++ pad2 (s % 60)) ∧
    plexRenderTime 0 0 = some "00:00" ∧
    _format_jellyfin_time 0 0 = "00:00" := by
  refine ⟨?_, ?_, ?_, ?_, by decide, by decide⟩
  · intro pos dur h1 h2
    unfold plexRenderTime
    rw [tdParts_of_lt pos h1]
    exact format_time_mm _ _ _ dur _ _ h2
      (pyIntNat_pad2 _ (by omega)) (pyIntNat_pad2 _ (by omega))
  · intro pos dur h1 h2
    unfold plexRenderTime
    rw [tdParts_of_lt pos h1]
    exact format_time_hms _ _ _ dur _ _ _ (by omega)
      (pyIntNat_toString _ (by omega))
      (pyIntNat_pad2 _ (by omega)) (pyIntNat_pad2 _ (by omega))
  · intro s t h
    unfold _format_jellyfin_time
    rw [if_pos h]
  · intro s t h
    unfold _format_jellyfin_time
    rw [if_neg (by omega)]

/-- Witness for C6 (amended) at concrete positions and durations. -/
theorem c6_time_format_amended_witness :
    plexRenderTime 1800000 1900000 = some "30:00" ∧
    plexRenderTime 5400000 7200000 = some "1:30:00" ∧
    _format_jellyfin_time 90 3599 = "01:30" ∧
    _format_jellyfin_time 5400 7200 = "1:30:00" := by
  refine ⟨?_, ?_, ?_, ?_⟩
  · have h := c6_time_format_amended.1 1800000 1900000 (by norm_num) (by norm_num)
    rw [h]
    decide
  · have h := c6_time_format_amended.2.1 5400000 7200000 (by norm_num) (by norm_num)
    rw [h]
    decide
  · have h := c6_time_format_amended.2.2.1 90 3599 (by norm_num)
    rw [h]
    decide
  · have h := c6_time_format_amended.2.2.2.1 5400 7200 (by norm_num)
    rw [h]
    decide

/-! ## C1 : formatter error boundary -/

lemma format_stream_info_ne_empty (um : List (String × String))
    (stats : List (String × SectionStats)) (s : PlexSessionRec) (idx : Nat) :
    format_stream_info um stats s idx ≠ "" := by
  unfold format_stream_info
  cases hb : formatStreamInfoParts um stats s with
  | ok p => exact mkStreamBlock_ne_empty _ _ _
  | error e => exact plexPlaceholder_ne_empty idx

lemma format_jellyfin_stream_info_ne_empty (um : List (String × String))
    (s : JFSession) (idx : Nat) :
    format_jellyfin_stream_info um s idx ≠ "" := by
  unfold format_jellyfin_stream_info
  cases hb : formatJellyfinParts um s with
  | ok p => exact mkStreamBlock_ne_empty _ _ _
  | error e => exact jellyfinPlaceholder_ne_empty idx

lemma filterMap_truthy {α : Type} (f : α → String) (hf : ∀ p, f p ≠ "")
    (l : List α) :
    l.filterMap (fun p =>
      let info := f p
      if info ≠ "" then some info else none) = l.map f := by
  induction l with
  | nil => rfl
  | cons hd tl ih => simpa [hf hd] using ih

/-- C1 counterexample: a record with every attribute missing makes the Plex
formatter return its actual placeholder, which is neither the literal the
claim quotes (the code writes `"(# 1)"` with a space, wrapped in a code
fence with a leading glyph) nor a three-line display block. -/
theorem c1_placeholder_counterexample :
    format_stream_info [] [] emptyPlexSession 1 = plexPlaceholder 1 ∧
    plexPlaceholder 1 ≠ "Stream could not be loaded (#1)" ∧
    ¬ ∃ a b c, plexPlaceholder 1 = mkStreamBlock a b c := by
  refine ⟨by decide, by decide, ?_⟩
  rintro ⟨a, b, c, hc⟩
  have h := newline_mem_mkStreamBlock a b c
  rw [← hc] at h
  exact absurd h (by decide)

/-- C1 amended: for every session record (Plex or Jellyfin shape) and every
index, the formatter returns either the three-line block skeleton or the
numbered placeholder actually emitted by the code
(```` ```❓ Stream could not be loaded (# <idx>)``` ````, and for the
Jellyfin path `"... Jellyfin stream could not be loaded (# <idx>) ..."`);
the stream lists are element-wise images of the session lists, so a
malformed record affects only its own entry. -/
theorem c1_formatter_boundary_amended :
    (∀ um stats s idx,
      (∃ a b c, format_stream_info um stats s idx = mkStreamBlock a b c) ∨
      format_stream_info um stats s idx = plexPlaceholder idx) ∧
    (∀ um s idx,
      (∃ a b c, format_jellyfin_stream_info um s idx = mkStreamBlock a b c) ∨
      format_jellyfin_stream_info um s idx = jellyfinPlaceholder idx) ∧
    (∀ um stats sessions,
      get_active_streams um stats sessions =
        (List.enumFrom 1 sessions).map
          (fun p => format_stream_info um stats p.2 p.1)) ∧
    (∀ um sessions,
      get_jellyfin_streams um sessions =
        (List.enumFrom 1 sessions).map
          (fun p => format_jellyfin_stream_info um p.2 p.1)) := by
  refine ⟨fun um stats s idx => ?_, fun um s idx => ?_,
    fun um stats sessions => ?_, fun um sessions => ?_⟩
  · unfold format_stream_info
    cases hb : formatStreamInfoParts um stats s with
    | ok p => exact Or.inl ⟨_, _, _, rfl⟩
    | error e => exact Or.inr rfl
  · unfold format_jellyfin_stream_info
    cases hb : formatJellyfinParts um s with
    | ok p => exact Or.inl ⟨_, _, _, rfl⟩
    | error e => exact Or.inr rfl
  · exact filterMap_truthy _
      (fun p : Nat × PlexSessionRec =>
        format_stream_info_ne_empty um stats p.2 p.1) _
  · exact filterMap_truthy _
      (fun p : Nat × JFSession =>
        format_jellyfin_stream_info_ne_empty um p.2 p.1) _

/-! ## C8 : total download-size aggregation -/



lemma rat_floor_eq (r : ℚ) (n : ℤ) (h1 : (n : ℚ) ≤ r) (h2 : r < n + 1) :
    r.floor = n := by
  have ha : n ≤ r.floor := Rat.le_floor.mpr h1
  have hb : ¬(n + 1 ≤ r.floor) := by
    intro hc
    have hle := Rat.le_floor.mp hc
    push_cast at hle
    linarith
  omega

lemma formatQ2_eq (q : ℚ) (n : Nat) (h1 : (n : ℚ) ≤ q * 100 + 1 / 2)
    (h2 : q * 100 + 1 / 2 < n + 1) :
    formatQ2 q = toString (n / 100) ++ "." ++ pad2 (n % 100) := by
  have hf : (q * 100 + 1 / 2).floor = (n : ℤ) := by
    refine rat_floor_eq _ _ (by exact_mod_cast h1) ?_
    push_cast
    exact h2
  unfold formatQ2
  rw [hf]
  simp

lemma sizeContribMB_of_spec (d : Download) (p : ℚ × String)
    (h : SizeSpec d p) :
    sizeContribMB d.size = some (normalizedMB p.1 p.2) := by
  obtain ⟨hunk, ⟨v, hsplit, hparse⟩, hu⟩ := h
  unfold sizeContribMB
  rw [if_neg hunk, hsplit]
  dsimp only
  rw [hparse]
  rcases hu with hu | hu | hu <;> rw [hu] <;> simp [normalizedMB]

lemma calc_total_fold (ds : List Download) (ps : List (ℚ × String))
    (h : List.Forall₂ SizeSpec ds ps) (acc : ℚ) :
    (ds.foldlM (fun acc d => do
      let c ← sizeContribMB d.size
      pure (acc + c)) acc) =
    some (acc + (ps.map (fun p => normalizedMB p.1 p.2)).sum) := by
  induction h generalizing acc with
  | nil => simp
  | cons hrel htail ih =>
    rename_i d p ds2 ps2
    simp only [List.foldlM_cons, sizeContribMB_of_spec _ _ hrel]
    simpa [add_assoc] using ih (acc + normalizedMB p.1 p.2)

/-- C8: for a list of downloads whose size strings are well-formed
KB/MB/GB-labeled values, `_calculate_total_size` normalizes each value to
megabytes (KB ÷ 1024, GB × 1024), sums them, and renders the total in GB
with two decimals when the sum is at least 1024 MB and in MB otherwise. -/
theorem c8_total_size_aggregation (ds : List Download)
    (ps : List (ℚ × String)) (h : List.Forall₂ SizeSpec ds ps) :
    _calculate_total_size ds =
      some (if (ps.map (fun p => normalizedMB p.1 p.2)).sum ≥ 1024
            then formatQ2 ((ps.map (fun p => normalizedMB p.1 p.2)).sum / 1024)
              ++ " GB"
            else formatQ2 ((ps.map (fun p => normalizedMB p.1 p.2)).sum)
              ++ " MB") := by
  unfold _calculate_total_size
  rw [calc_total_fold ds ps h 0]
  simp


lemma parseDecimal_512 : parseDecimal "512" = some ((512 : ℕ) : ℚ) := by
  have h1 : pySplitOn "512" '.' = ["512"] := by decide
  have h2 : pyIntNat "512" = some 512 := by decide
  simp [parseDecimal, h1, h2]

lemma parseDecimal_1 : parseDecimal "1" = some ((1 : ℕ) : ℚ) := by
  have h1 : pySplitOn "1" '.' = ["1"] := by decide
  have h2 : pyIntNat "1" = some 1 := by decide
  simp [parseDecimal, h1, h2]

lemma parseDecimal_2 : parseDecimal "2" = some ((2 : ℕ) : ℚ) := by
  have h1 : pySplitOn "2" '.' = ["2"] := by decide
  have h2 : pyIntNat "2" = some 2 := by decide
  simp [parseDecimal, h1, h2]

/-- Witness for C8: `["512 KB", "1 MB", "2 GB"]` sums to 2049.5 MB and
renders as `"2.00 GB"`. -/
theorem c8_total_size_aggregation_witness :
    _calculate_total_size c8downloads = some "2.00 GB" := by
  have hf : List.Forall₂ SizeSpec c8downloads
      [((512 : ℕ), "KB"), ((1 : ℕ), "MB"), ((2 : ℕ), "GB")] := by
    refine List.Forall₂.cons ⟨by decide, ⟨"512", by decide, parseDecimal_512⟩,
        Or.inl rfl⟩ ?_
    refine List.Forall₂.cons ⟨by decide, ⟨"1", by decide, parseDecimal_1⟩,
        Or.inr (Or.inl rfl)⟩ ?_
    exact List.Forall₂.cons ⟨by decide, ⟨"2", by decide, parseDecimal_2⟩,
        Or.inr (Or.inr rfl)⟩ List.Forall₂.nil
  have h := c8_total_size_aggregation c8downloads _ hf
  rw [h]
  have hsum : ((([((512 : ℕ), "KB"), ((1 : ℕ), "MB"), ((2 : ℕ), "GB")] :
      List (ℚ × String)).map (fun p => normalizedMB p.1 p.2)).sum : ℚ) =
      4099 / 2 := by
    simp [normalizedMB]
    norm_num
  rw [hsum, if_pos (by norm_num)]
  have hq : formatQ2 ((4099 : ℚ) / 2 / 1024) =
      toString (200 / 100) ++ "." ++ pad2 (200 % 100) :=
    formatQ2_eq _ 200 (by norm_num) (by norm_num)
  rw [hq]
  decide

/-! ## C10 : dashboard downloads aggregate -/

/-- C10: the dashboard's aggregate "Downloads" size field is computed over
exactly the first 4 download records (the same slice that is displayed),
skipping `"Unknown"` sizes and counting unrecognized units as zero
megabytes, and the aggregation is total on such inputs. -/
theorem c10_downloads_aggregate (cfg : PlexSectionsConfig)
    (fmtDl : Download → Nat → String) (info : DashboardInfo)
    (dls : DownloadsInfo) (r : String)
    (hd : info.downloads = some dls) (hne : dls.downloads ≠ [])
    (hr : _calculate_total_size (dls.downloads.take 4) = some r) :
    (∃ fields, _add_embed_fields cfg fmtDl info = some fields ∧
      (downloadsFieldName, "```" ++ r ++ "```") ∈ fields) ∧
    sizeContribMB "Unknown" = some 0 ∧
    (∀ s v u q, s ≠ "Unknown" → pySplitWS s = [v, u] →
      parseDecimal v = some q → u ≠ "KB" → u ≠ "MB" → u ≠ "GB" →
      sizeContribMB s = some 0) := by
  refine ⟨?_, rfl, ?_⟩
  · unfold _add_embed_fields
    rw [hd]
    dsimp only
    rw [if_pos hne]
    rw [hr]
    refine ⟨_, rfl, ?_⟩
    exact List.mem_append_right _ (by simp)
  · intro s v u q hs hsplit hparse h1 h2 h3
    unfold sizeContribMB
    rw [if_neg hs, hsplit]
    dsimp only
    rw [hparse]
    dsimp only
    rw [if_neg h1, if_neg h2, if_neg h3]



lemma parseDecimal_5 : parseDecimal "5" = some ((5 : ℕ) : ℚ) := by
  have h1 : pySplitOn "5" '.' = ["5"] := by decide
  have h2 : pyIntNat "5" = some 5 := by decide
  simp [parseDecimal, h1, h2]

lemma sizeContrib_5XB : sizeContribMB "5 XB" = some 0 := by
  unfold sizeContribMB
  rw [if_neg (by decide), show pySplitWS "5 XB" = ["5", "XB"] from by decide]
  dsimp only
  rw [parseDecimal_5]
  simp

lemma sizeContrib_512KB : sizeContribMB "512 KB" = some ((512 : ℚ) / 1024) := by
  unfold sizeContribMB
  rw [if_neg (by decide),
    show pySplitWS "512 KB" = ["512", "KB"] from by decide]
  dsimp only
  rw [parseDecimal_512]
  norm_num

lemma sizeContrib_1MB : sizeContribMB "1 MB" = some 1 := by
  unfold sizeContribMB
  rw [if_neg (by decide), show pySplitWS "1 MB" = ["1", "MB"] from by decide]
  dsimp only
  rw [parseDecimal_1]
  simp

lemma c10_take4_total :
    _calculate_total_size (c10dls.downloads.take 4) = some "1.50 MB" := by
  have ht : c10dls.downloads.take 4 =
      [{ size := "Unknown" }, { size := "5 XB" },
       { size := "512 KB" }, { size := "1 MB" }] := by decide
  rw [ht]
  unfold _calculate_total_size
  simp only [List.foldlM_cons, List.foldlM_nil, sizeContrib_5XB,
    sizeContrib_512KB, sizeContrib_1MB,
    show sizeContribMB "Unknown" = some 0 from rfl]
  have hsum : (0 : ℚ) + 0 + 0 + 512 / 1024 + 1 = 3 / 2 := by norm_num
  show some (if (0 : ℚ) + 0 + 0 + 512 / 1024 + 1 ≥ 1024
      then formatQ2 (((0 : ℚ) + 0 + 0 + 512 / 1024 + 1) / 1024) ++ " GB"
      else formatQ2 ((0 : ℚ) + 0 + 0 + 512 / 1024 + 1) ++ " MB") =
    some "1.50 MB"
  rw [hsum, if_neg (by norm_num)]
  have hq : formatQ2 ((3 : ℚ) / 2) = toString (150 / 100) ++ "." ++ pad2 (150 % 100) :=
    formatQ2_eq _ 150 (by norm_num) (by norm_num)
  rw [hq]
  decide

/-- Witness for C10: with five downloads, the aggregate field is the take-4
total `1.50 MB` (the whole-list total would be 2049.5 MB), Unknown skipped
and the unrecognized `XB` unit contributing zero. -/
theorem c10_downloads_aggregate_witness :
    ∃ fields,
      _add_embed_fields { show_all := true, sections := [] }
        (fun d _ => d.size) c10info = some fields ∧
      (downloadsFieldName, "```" ++ "1.50 MB" ++ "```") ∈ fields :=
  (c10_downloads_aggregate { show_all := true, sections := [] }
    (fun d _ => d.size) c10info c10dls "1.50 MB" rfl (by decide)
    c10_take4_total).1

end PlexWatch
